import Mathlib

/-!
Verification of the download finalization and interrupt-classification logic of
content/browser/download/base_file_win.cc.

The embedding follows the source file closely:
- DownloadInterruptReason is the closed enumeration of semantic failure
  categories used by this translation unit.
- MapShFileOperationCodes mirrors the switch over the legacy SHFileOperation
  result codes; the fallback for codes not in the table is the external pair
  ConvertNetErrorToInterruptReason and net.MapSystemError, which are not part
  of this translation unit, so the composed fallback translator is taken as an
  explicit function parameter.
- MapScanAndSaveErrorCodeToInterruptReason mirrors the HRESULT classifier.
  HRESULT is a signed 32-bit integer; SUCCEEDED(hr) is (hr >= 0).
- MoveFileAndAdjustPermissions and AnnotateWithSourceInformation mirror the two
  BaseFile methods. The OS observations they depend on (the SHFileOperation
  result code, the fAnyOperationsAborted flag, the ScanAndSaveDownloadedFile
  HRESULT and the post-call PathExists check) are taken as parameters, and the
  diagnostic side effects (RecordDownloadCount, LogInterruptReason) are made
  explicit in the returned value.
-/

namespace BaseFileWin

/-- The closed enumeration of interrupt reasons used by base_file_win.cc
(download_interrupt_reasons.h). Constructors keep the source constant names. -/
inductive DownloadInterruptReason where
  | DOWNLOAD_INTERRUPT_REASON_NONE
  | DOWNLOAD_INTERRUPT_REASON_FILE_FAILED
  | DOWNLOAD_INTERRUPT_REASON_FILE_ACCESS_DENIED
  | DOWNLOAD_INTERRUPT_REASON_FILE_NAME_TOO_LONG
  | DOWNLOAD_INTERRUPT_REASON_FILE_TOO_LARGE
  | DOWNLOAD_INTERRUPT_REASON_FILE_BLOCKED
  | DOWNLOAD_INTERRUPT_REASON_FILE_VIRUS_INFECTED
  | DOWNLOAD_INTERRUPT_REASON_FILE_SECURITY_CHECK_FAILED
deriving DecidableEq, Repr

open DownloadInterruptReason

/-- SUCCEEDED(hr) for a signed 32-bit HRESULT: the value is nonnegative. -/
def SUCCEEDED (hr : Int) : Bool := decide (0 ≤ hr)

/-- FAILED(hr) for a signed 32-bit HRESULT. -/
def FAILED (hr : Int) : Bool := ! SUCCEEDED hr

/-- INET_E_SECURITY_PROBLEM, hexadecimal 0x800C000E, as a signed 32-bit value. -/
def INET_E_SECURITY_PROBLEM : Int := -2146697202

/-- E_FAIL, hexadecimal 0x80004005, as a signed 32-bit value. -/
def E_FAIL : Int := -2147467259

/-- MapShFileOperationCodes from base_file_win.cc lines 29-145: the switch over
the legacy pre-Win32 SHFileOperation result codes, in source order. Codes not
matched by the switch fall through to
ConvertNetErrorToInterruptReason(net.MapSystemError(code), FROM_DISK); both of
those functions are external to this translation unit, so their composition is
taken here as the parameter convertFallback. -/
def MapShFileOperationCodes (convertFallback : Int → DownloadInterruptReason)
    (code : Int) : DownloadInterruptReason :=
  if code = 0x71 then DOWNLOAD_INTERRUPT_REASON_FILE_FAILED
  else if code = 0x75 then DOWNLOAD_INTERRUPT_REASON_FILE_FAILED
  else if code = 0x78 then DOWNLOAD_INTERRUPT_REASON_FILE_ACCESS_DENIED
  else if code = 0x79 then DOWNLOAD_INTERRUPT_REASON_FILE_NAME_TOO_LONG
  else if code = 0x7C then DOWNLOAD_INTERRUPT_REASON_FILE_FAILED
  else if code = 0x7E then DOWNLOAD_INTERRUPT_REASON_FILE_FAILED
  else if code = 0x80 then DOWNLOAD_INTERRUPT_REASON_FILE_FAILED
  else if code = 0x81 then DOWNLOAD_INTERRUPT_REASON_FILE_NAME_TOO_LONG
  else if code = 0x82 then DOWNLOAD_INTERRUPT_REASON_FILE_ACCESS_DENIED
  else if code = 0x83 then DOWNLOAD_INTERRUPT_REASON_FILE_ACCESS_DENIED
  else if code = 0x84 then DOWNLOAD_INTERRUPT_REASON_FILE_ACCESS_DENIED
  else if code = 0x85 then DOWNLOAD_INTERRUPT_REASON_FILE_TOO_LARGE
  else if code = 0x86 then DOWNLOAD_INTERRUPT_REASON_FILE_ACCESS_DENIED
  else if code = 0x87 then DOWNLOAD_INTERRUPT_REASON_FILE_ACCESS_DENIED
  else if code = 0x88 then DOWNLOAD_INTERRUPT_REASON_FILE_ACCESS_DENIED
  else if code = 0xB7 then DOWNLOAD_INTERRUPT_REASON_FILE_NAME_TOO_LONG
  else if code = 0x10000 then DOWNLOAD_INTERRUPT_REASON_FILE_FAILED
  else if code = 0x72 then DOWNLOAD_INTERRUPT_REASON_FILE_FAILED
  else if code = 0x73 then DOWNLOAD_INTERRUPT_REASON_FILE_FAILED
  else if code = 0x74 then DOWNLOAD_INTERRUPT_REASON_FILE_FAILED
  else if code = 0x76 then DOWNLOAD_INTERRUPT_REASON_FILE_FAILED
  else if code = 0x7A then DOWNLOAD_INTERRUPT_REASON_FILE_FAILED
  else if code = 0x7D then DOWNLOAD_INTERRUPT_REASON_FILE_FAILED
  else if code = 0x402 then DOWNLOAD_INTERRUPT_REASON_FILE_FAILED
  else if code = 0x10074 then DOWNLOAD_INTERRUPT_REASON_FILE_FAILED
  else convertFallback code

/-- The legacy SHFileOperation code table of MapShFileOperationCodes, written
as an association list of (code, reason) pairs taken case by case from the
switch in base_file_win.cc lines 33-140. Used to state the table-membership
claims independently of the if-chain above. -/
def shFileOperationLegacyTable : List (Int × DownloadInterruptReason) :=
  [ (0x71, DOWNLOAD_INTERRUPT_REASON_FILE_FAILED),
    (0x75, DOWNLOAD_INTERRUPT_REASON_FILE_FAILED),
    (0x78, DOWNLOAD_INTERRUPT_REASON_FILE_ACCESS_DENIED),
    (0x79, DOWNLOAD_INTERRUPT_REASON_FILE_NAME_TOO_LONG),
    (0x7C, DOWNLOAD_INTERRUPT_REASON_FILE_FAILED),
    (0x7E, DOWNLOAD_INTERRUPT_REASON_FILE_FAILED),
    (0x80, DOWNLOAD_INTERRUPT_REASON_FILE_FAILED),
    (0x81, DOWNLOAD_INTERRUPT_REASON_FILE_NAME_TOO_LONG),
    (0x82, DOWNLOAD_INTERRUPT_REASON_FILE_ACCESS_DENIED),
    (0x83, DOWNLOAD_INTERRUPT_REASON_FILE_ACCESS_DENIED),
    (0x84, DOWNLOAD_INTERRUPT_REASON_FILE_ACCESS_DENIED),
    (0x85, DOWNLOAD_INTERRUPT_REASON_FILE_TOO_LARGE),
    (0x86, DOWNLOAD_INTERRUPT_REASON_FILE_ACCESS_DENIED),
    (0x87, DOWNLOAD_INTERRUPT_REASON_FILE_ACCESS_DENIED),
    (0x88, DOWNLOAD_INTERRUPT_REASON_FILE_ACCESS_DENIED),
    (0xB7, DOWNLOAD_INTERRUPT_REASON_FILE_NAME_TOO_LONG),
    (0x10000, DOWNLOAD_INTERRUPT_REASON_FILE_FAILED),
    (0x72, DOWNLOAD_INTERRUPT_REASON_FILE_FAILED),
    (0x73, DOWNLOAD_INTERRUPT_REASON_FILE_FAILED),
    (0x74, DOWNLOAD_INTERRUPT_REASON_FILE_FAILED),
    (0x76, DOWNLOAD_INTERRUPT_REASON_FILE_FAILED),
    (0x7A, DOWNLOAD_INTERRUPT_REASON_FILE_FAILED),
    (0x7D, DOWNLOAD_INTERRUPT_REASON_FILE_FAILED),
    (0x402, DOWNLOAD_INTERRUPT_REASON_FILE_FAILED),
    (0x10074, DOWNLOAD_INTERRUPT_REASON_FILE_FAILED) ]

/-- MapScanAndSaveErrorCodeToInterruptReason from base_file_win.cc lines
150-174: a succeeded HRESULT maps to NONE; a failed HRESULT maps through the
small policy table (INET_E_SECURITY_PROBLEM, E_FAIL) with
FILE_SECURITY_CHECK_FAILED as the default. -/
def MapScanAndSaveErrorCodeToInterruptReason (result : Int) :
    DownloadInterruptReason :=
  if SUCCEEDED result then DOWNLOAD_INTERRUPT_REASON_NONE
  else if result = INET_E_SECURITY_PROBLEM then
    DOWNLOAD_INTERRUPT_REASON_FILE_BLOCKED
  else if result = E_FAIL then
    DOWNLOAD_INTERRUPT_REASON_FILE_VIRUS_INFECTED
  else DOWNLOAD_INTERRUPT_REASON_FILE_SECURITY_CHECK_FAILED

/-- Modelled from the spec: LogInterruptReason lives in
download_interrupt_reasons_impl.h, which is not among the sources; the spec
describes it as a fire-and-forget diagnostic hook whose failure or success
never affects the returned reason, and the call sites use its return value as
the reason itself. It is therefore modelled as returning the passed reason
unchanged; the source also passes an operation-name tag and the raw code,
which do not affect the result and are dropped here. -/
def LogInterruptReason (reason : DownloadInterruptReason) :
    DownloadInterruptReason := reason

/-- BaseFile::MoveFileAndAdjustPermissions from base_file_win.cc lines
181-210, after the SHFileOperation call has returned: the integer result code
and the fAnyOperationsAborted flag of the move_info structure are the two OS
observations and are taken as parameters, as is the external fallback
translator used by MapShFileOperationCodes. A zero result with the aborted
flag set yields FILE_FAILED; a nonzero result goes through
MapShFileOperationCodes; otherwise the reason stays NONE. A non-NONE reason is
returned through LogInterruptReason. -/
def MoveFileAndAdjustPermissions
    (convertFallback : Int → DownloadInterruptReason)
    (result : Int) (fAnyOperationsAborted : Bool) : DownloadInterruptReason :=
  let interrupt_reason :=
    if result = 0 ∧ fAnyOperationsAborted = true then
      DOWNLOAD_INTERRUPT_REASON_FILE_FAILED
    else if result ≠ 0 then MapShFileOperationCodes convertFallback result
    else DOWNLOAD_INTERRUPT_REASON_NONE
  if interrupt_reason ≠ DOWNLOAD_INTERRUPT_REASON_NONE then
    LogInterruptReason interrupt_reason
  else interrupt_reason

/-- The observable outcome of one AnnotateWithSourceInformation invocation:
the returned reason, whether RecordDownloadCount was called with
FILE_MISSING_AFTER_SUCCESSFUL_SCAN_COUNT, and whether LogInterruptReason was
called for the scan. -/
structure AnnotateOutcome where
  reason : DownloadInterruptReason
  recordedFileMissingAfterSuccessfulScan : Bool
  loggedScanResult : Bool
deriving DecidableEq, Repr

/-- BaseFile::AnnotateWithSourceInformation from base_file_win.cc lines
212-242. The HRESULT hr of the external ScanAndSaveDownloadedFile call and the
post-call file_util::PathExists observation are taken as parameters. When the
file is missing, the HRESULT is classified and a classifier result of NONE is
coerced to FILE_SECURITY_CHECK_FAILED after recording the
FILE_MISSING_AFTER_SUCCESSFUL_SCAN_COUNT counter, and the outcome is logged;
when the file still exists, the reason stays NONE with no counter and no log.
The DCHECK(FAILED(hr)) in the missing-file branch is a debug assertion with no
effect on the returned value and is not modelled. -/
def AnnotateWithSourceInformation (hr : Int) (pathExists : Bool) :
    AnnotateOutcome :=
  if pathExists = false then
    let r1 := MapScanAndSaveErrorCodeToInterruptReason hr
    let recorded : Bool := decide (r1 = DOWNLOAD_INTERRUPT_REASON_NONE)
    let r2 := if r1 = DOWNLOAD_INTERRUPT_REASON_NONE then
                DOWNLOAD_INTERRUPT_REASON_FILE_SECURITY_CHECK_FAILED
              else r1
    ⟨LogInterruptReason r2, recorded, true⟩
  else ⟨DOWNLOAD_INTERRUPT_REASON_NONE, false, false⟩

/-- C4: a zero relocation result with the any-operations-aborted flag set
yields FILE_FAILED and never NONE; a nonzero result is passed to the
relocation-code classifier MapShFileOperationCodes; a zero result without the
aborted flag yields NONE. -/
theorem move_result_interpretation
    (convertFallback : Int → DownloadInterruptReason)
    (result : Int) (fAnyOperationsAborted : Bool) :
    (result = 0 ∧ fAnyOperationsAborted = true →
      MoveFileAndAdjustPermissions convertFallback result fAnyOperationsAborted
        = DOWNLOAD_INTERRUPT_REASON_FILE_FAILED ∧
      MoveFileAndAdjustPermissions convertFallback result fAnyOperationsAborted
        ≠ DOWNLOAD_INTERRUPT_REASON_NONE) ∧
    (result ≠ 0 →
      MoveFileAndAdjustPermissions convertFallback result fAnyOperationsAborted
        = MapShFileOperationCodes convertFallback result) ∧
    (result = 0 ∧ fAnyOperationsAborted = false →
      MoveFileAndAdjustPermissions convertFallback result fAnyOperationsAborted
        = DOWNLOAD_INTERRUPT_REASON_NONE) := by
  simp only [MoveFileAndAdjustPermissions, LogInterruptReason]
  split_ifs <;> simp_all

/-- Witness for C4 at the concrete inputs (result 0, aborted flag true) and
(result 0, aborted flag false). -/
theorem move_result_interpretation_witness :
    MoveFileAndAdjustPermissions
        (fun _ => DOWNLOAD_INTERRUPT_REASON_NONE) 0 true
      = DOWNLOAD_INTERRUPT_REASON_FILE_FAILED ∧
    MoveFileAndAdjustPermissions
        (fun _ => DOWNLOAD_INTERRUPT_REASON_NONE) 0 false
      = DOWNLOAD_INTERRUPT_REASON_NONE :=
  ⟨((move_result_interpretation
      (fun _ => DOWNLOAD_INTERRUPT_REASON_NONE) 0 true).1 ⟨rfl, rfl⟩).1,
    (move_result_interpretation
      (fun _ => DOWNLOAD_INTERRUPT_REASON_NONE) 0 false).2.2 ⟨rfl, rfl⟩⟩

/-- C5: every code of the legacy table yields its table-specified reason, and
the result does not depend on the fallback translator (stated by quantifying
over two arbitrary fallbacks); in particular 0x71 yields FILE_FAILED and 0x79
yields FILE_NAME_TOO_LONG. -/
theorem legacy_table_precedence
    (f g : Int → DownloadInterruptReason) (code : Int)
    (r : DownloadInterruptReason)
    (h : (code, r) ∈ shFileOperationLegacyTable) :
    MapShFileOperationCodes f code = r ∧
    MapShFileOperationCodes f code = MapShFileOperationCodes g code ∧
    MapShFileOperationCodes f 0x71 = DOWNLOAD_INTERRUPT_REASON_FILE_FAILED ∧
    MapShFileOperationCodes f 0x79 =
      DOWNLOAD_INTERRUPT_REASON_FILE_NAME_TOO_LONG := by
  have hf : MapShFileOperationCodes f code = r := by
    fin_cases h <;> rfl
  have hg : MapShFileOperationCodes g code = r := by
    fin_cases h <;> rfl
  exact ⟨hf, hf.trans hg.symm, rfl, rfl⟩

/-- Witness for C5 at the concrete legacy code 0x71 with its table reason
FILE_FAILED and two distinct concrete fallbacks. -/
theorem legacy_table_precedence_witness :
    (((0x71 : Int), DOWNLOAD_INTERRUPT_REASON_FILE_FAILED) ∈
      shFileOperationLegacyTable) ∧
    MapShFileOperationCodes (fun _ => DOWNLOAD_INTERRUPT_REASON_NONE) 0x71 =
      DOWNLOAD_INTERRUPT_REASON_FILE_FAILED ∧
    MapShFileOperationCodes (fun _ => DOWNLOAD_INTERRUPT_REASON_NONE) 0x79 =
      DOWNLOAD_INTERRUPT_REASON_FILE_NAME_TOO_LONG :=
  ⟨by decide,
    (legacy_table_precedence (fun _ => DOWNLOAD_INTERRUPT_REASON_NONE)
      (fun _ => DOWNLOAD_INTERRUPT_REASON_FILE_FAILED) 0x71
      DOWNLOAD_INTERRUPT_REASON_FILE_FAILED (by decide)).1,
    (legacy_table_precedence (fun _ => DOWNLOAD_INTERRUPT_REASON_NONE)
      (fun _ => DOWNLOAD_INTERRUPT_REASON_FILE_FAILED) 0x71
      DOWNLOAD_INTERRUPT_REASON_FILE_FAILED (by decide)).2.2.2⟩

set_option maxHeartbeats 1600000 in
/-- C6: the relocation-code classifier is total on the 32-bit integer range:
every input either hits the legacy table (and returns the table entry) or
misses it (and returns the generic fallback translator result); it is a plain
function, so it cannot throw or fail. -/
theorem classify_relocation_total
    (convertFallback : Int → DownloadInterruptReason) (code : Int)
    (hlo : -(2 ^ 31) ≤ code) (hhi : code < 2 ^ 31) :
    (∃ r, shFileOperationLegacyTable.lookup code = some r ∧
      MapShFileOperationCodes convertFallback code = r) ∨
    (shFileOperationLegacyTable.lookup code = none ∧
      MapShFileOperationCodes convertFallback code = convertFallback code) := by
  by_cases h1 : code = 0x71
  · subst h1; exact Or.inl ⟨_, rfl, rfl⟩
  by_cases h2 : code = 0x75
  · subst h2; exact Or.inl ⟨_, rfl, rfl⟩
  by_cases h3 : code = 0x78
  · subst h3; exact Or.inl ⟨_, rfl, rfl⟩
  by_cases h4 : code = 0x79
  · subst h4; exact Or.inl ⟨_, rfl, rfl⟩
  by_cases h5 : code = 0x7C
  · subst h5; exact Or.inl ⟨_, rfl, rfl⟩
  by_cases h6 : code = 0x7E
  · subst h6; exact Or.inl ⟨_, rfl, rfl⟩
  by_cases h7 : code = 0x80
  · subst h7; exact Or.inl ⟨_, rfl, rfl⟩
  by_cases h8 : code = 0x81
  · subst h8; exact Or.inl ⟨_, rfl, rfl⟩
  by_cases h9 : code = 0x82
  · subst h9; exact Or.inl ⟨_, rfl, rfl⟩
  by_cases h10 : code = 0x83
  · subst h10; exact Or.inl ⟨_, rfl, rfl⟩
  by_cases h11 : code = 0x84
  · subst h11; exact Or.inl ⟨_, rfl, rfl⟩
  by_cases h12 : code = 0x85
  · subst h12; exact Or.inl ⟨_, rfl, rfl⟩
  by_cases h13 : code = 0x86
  · subst h13; exact Or.inl ⟨_, rfl, rfl⟩
  by_cases h14 : code = 0x87
  · subst h14; exact Or.inl ⟨_, rfl, rfl⟩
  by_cases h15 : code = 0x88
  · subst h15; exact Or.inl ⟨_, rfl, rfl⟩
  by_cases h16 : code = 0xB7
  · subst h16; exact Or.inl ⟨_, rfl, rfl⟩
  by_cases h17 : code = 0x10000
  · subst h17; exact Or.inl ⟨_, rfl, rfl⟩
  by_cases h18 : code = 0x72
  · subst h18; exact Or.inl ⟨_, rfl, rfl⟩
  by_cases h19 : code = 0x73
  · subst h19; exact Or.inl ⟨_, rfl, rfl⟩
  by_cases h20 : code = 0x74
  · subst h20; exact Or.inl ⟨_, rfl, rfl⟩
  by_cases h21 : code = 0x76
  · subst h21; exact Or.inl ⟨_, rfl, rfl⟩
  by_cases h22 : code = 0x7A
  · subst h22; exact Or.inl ⟨_, rfl, rfl⟩
  by_cases h23 : code = 0x7D
  · subst h23; exact Or.inl ⟨_, rfl, rfl⟩
  by_cases h24 : code = 0x402
  · subst h24; exact Or.inl ⟨_, rfl, rfl⟩
  by_cases h25 : code = 0x10074
  · subst h25; exact Or.inl ⟨_, rfl, rfl⟩
  refine Or.inr ⟨?_, ?_⟩
  · simp only [shFileOperationLegacyTable, List.lookup_cons,
      beq_false_of_ne h1, beq_false_of_ne h2, beq_false_of_ne h3,
      beq_false_of_ne h4, beq_false_of_ne h5, beq_false_of_ne h6,
      beq_false_of_ne h7, beq_false_of_ne h8, beq_false_of_ne h9,
      beq_false_of_ne h10, beq_false_of_ne h11, beq_false_of_ne h12,
      beq_false_of_ne h13, beq_false_of_ne h14, beq_false_of_ne h15,
      beq_false_of_ne h16, beq_false_of_ne h17, beq_false_of_ne h18,
      beq_false_of_ne h19, beq_false_of_ne h20, beq_false_of_ne h21,
      beq_false_of_ne h22, beq_false_of_ne h23, beq_false_of_ne h24,
      beq_false_of_ne h25]
    rfl
  · simp [MapShFileOperationCodes, h1, h2, h3, h4, h5, h6, h7, h8, h9,
      h10, h11, h12, h13, h14, h15, h16, h17, h18, h19, h20, h21, h22, h23,
      h24, h25]

/-- Witness for C6 at the concrete non-table code 3 with a concrete
fallback. -/
theorem classify_relocation_total_witness :
    (∃ r, shFileOperationLegacyTable.lookup 3 = some r ∧
      MapShFileOperationCodes
        (fun _ => DOWNLOAD_INTERRUPT_REASON_FILE_TOO_LARGE) 3 = r) ∨
    (shFileOperationLegacyTable.lookup 3 = none ∧
      MapShFileOperationCodes
        (fun _ => DOWNLOAD_INTERRUPT_REASON_FILE_TOO_LARGE) 3 =
          DOWNLOAD_INTERRUPT_REASON_FILE_TOO_LARGE) :=
  classify_relocation_total
    (fun _ => DOWNLOAD_INTERRUPT_REASON_FILE_TOO_LARGE) 3
    (by decide) (by decide)

/-- C7: when the inspection status indicates failure and the file is missing,
INET_E_SECURITY_PROBLEM classifies to FILE_BLOCKED, E_FAIL classifies to
FILE_VIRUS_INFECTED, and every other failing status classifies to
FILE_SECURITY_CHECK_FAILED. -/
theorem scan_failure_missing_policy_table (hr : Int)
    (h : SUCCEEDED hr = false) :
    (hr = INET_E_SECURITY_PROBLEM →
      (AnnotateWithSourceInformation hr false).reason =
        DOWNLOAD_INTERRUPT_REASON_FILE_BLOCKED) ∧
    (hr = E_FAIL →
      (AnnotateWithSourceInformation hr false).reason =
        DOWNLOAD_INTERRUPT_REASON_FILE_VIRUS_INFECTED) ∧
    (hr ≠ INET_E_SECURITY_PROBLEM → hr ≠ E_FAIL →
      (AnnotateWithSourceInformation hr false).reason =
        DOWNLOAD_INTERRUPT_REASON_FILE_SECURITY_CHECK_FAILED) := by
  simp only [AnnotateWithSourceInformation,
    MapScanAndSaveErrorCodeToInterruptReason, LogInterruptReason, h]
  split_ifs <;> simp_all [INET_E_SECURITY_PROBLEM, E_FAIL]

/-- Witness for C7 at the concrete failing status INET_E_SECURITY_PROBLEM
with the file missing. -/
theorem scan_failure_missing_policy_table_witness :
    (AnnotateWithSourceInformation INET_E_SECURITY_PROBLEM false).reason =
      DOWNLOAD_INTERRUPT_REASON_FILE_BLOCKED :=
  (scan_failure_missing_policy_table INET_E_SECURITY_PROBLEM (by decide)).1 rfl

/-- C1: the claim states that whenever SUCCEEDED(hr) holds the classification
of the inspection outcome is NONE regardless of whether the destination file
still exists; this counterexample shows that at hr = 0 (a succeeded status)
with the file missing, the annotate step returns FILE_SECURITY_CHECK_FAILED,
not NONE. -/
theorem scan_success_missing_file_not_none :
    SUCCEEDED 0 = true ∧
    (AnnotateWithSourceInformation 0 false).reason =
      DOWNLOAD_INTERRUPT_REASON_FILE_SECURITY_CHECK_FAILED ∧
    (AnnotateWithSourceInformation 0 false).reason ≠
      DOWNLOAD_INTERRUPT_REASON_NONE := by
  decide

/-- C1 (amended): for every succeeded inspection status, the bare classifier
MapScanAndSaveErrorCodeToInterruptReason returns NONE, and the annotate step
returns NONE when the destination file still exists; when the file is missing
the annotate step instead returns FILE_SECURITY_CHECK_FAILED. -/
theorem scan_success_classifies_none (hr : Int) (h : SUCCEEDED hr = true) :
    MapScanAndSaveErrorCodeToInterruptReason hr =
      DOWNLOAD_INTERRUPT_REASON_NONE ∧
    (AnnotateWithSourceInformation hr true).reason =
      DOWNLOAD_INTERRUPT_REASON_NONE := by
  constructor
  · simp [MapScanAndSaveErrorCodeToInterruptReason, h]
  · rfl

/-- Witness for the C1 amended theorem at the concrete succeeded status 0. -/
theorem scan_success_classifies_none_witness :
    MapScanAndSaveErrorCodeToInterruptReason 0 =
      DOWNLOAD_INTERRUPT_REASON_NONE ∧
    (AnnotateWithSourceInformation 0 true).reason =
      DOWNLOAD_INTERRUPT_REASON_NONE :=
  scan_success_classifies_none 0 (by decide)

/-- C2: for every failed inspection status, if the destination file does not
exist after the call, the annotate step never returns NONE and its result is
one of FILE_BLOCKED, FILE_VIRUS_INFECTED, FILE_SECURITY_CHECK_FAILED. -/
theorem annotate_failed_missing_never_none (hr : Int)
    (h : SUCCEEDED hr = false) :
    (AnnotateWithSourceInformation hr false).reason ≠
      DOWNLOAD_INTERRUPT_REASON_NONE ∧
    ((AnnotateWithSourceInformation hr false).reason =
        DOWNLOAD_INTERRUPT_REASON_FILE_BLOCKED ∨
      (AnnotateWithSourceInformation hr false).reason =
        DOWNLOAD_INTERRUPT_REASON_FILE_VIRUS_INFECTED ∨
      (AnnotateWithSourceInformation hr false).reason =
        DOWNLOAD_INTERRUPT_REASON_FILE_SECURITY_CHECK_FAILED) := by
  simp only [AnnotateWithSourceInformation,
    MapScanAndSaveErrorCodeToInterruptReason, LogInterruptReason, h]
  split_ifs <;> simp_all

/-- Witness for C2 at the concrete failed status E_FAIL. -/
theorem annotate_failed_missing_never_none_witness :
    (AnnotateWithSourceInformation E_FAIL false).reason ≠
      DOWNLOAD_INTERRUPT_REASON_NONE ∧
    ((AnnotateWithSourceInformation E_FAIL false).reason =
        DOWNLOAD_INTERRUPT_REASON_FILE_BLOCKED ∨
      (AnnotateWithSourceInformation E_FAIL false).reason =
        DOWNLOAD_INTERRUPT_REASON_FILE_VIRUS_INFECTED ∨
      (AnnotateWithSourceInformation E_FAIL false).reason =
        DOWNLOAD_INTERRUPT_REASON_FILE_SECURITY_CHECK_FAILED) :=
  annotate_failed_missing_never_none E_FAIL (by decide)

/-- C3: for every failed inspection status, if the destination file still
exists after the call, the annotate step returns NONE. -/
theorem annotate_failed_exists_none (hr : Int) (h : SUCCEEDED hr = false) :
    (AnnotateWithSourceInformation hr true).reason =
      DOWNLOAD_INTERRUPT_REASON_NONE := rfl

/-- Witness for C3 at the concrete failed status E_FAIL. -/
theorem annotate_failed_exists_none_witness :
    (AnnotateWithSourceInformation E_FAIL true).reason =
      DOWNLOAD_INTERRUPT_REASON_NONE :=
  annotate_failed_exists_none E_FAIL (by decide)

/-- C8: the claim states that an annotate result of NONE implies the
inspection call itself reported success; this counterexample shows the lenient
path at hr = E_FAIL (a failed status) with the file still present, where the
annotate step returns NONE although the call failed. -/
theorem annotate_none_despite_failed_scan :
    SUCCEEDED E_FAIL = false ∧
    (AnnotateWithSourceInformation E_FAIL true).reason =
      DOWNLOAD_INTERRUPT_REASON_NONE := by
  decide

/-- C8 (amended): the annotate step, a function, produces exactly one reason
per invocation, and that reason is NONE exactly when the destination file
still exists after the call; NONE therefore does not imply that the inspection
call itself reported success, only that the artifact was left in place. -/
theorem annotate_none_iff_file_exists (hr : Int) (pathExists : Bool) :
    (AnnotateWithSourceInformation hr pathExists).reason =
      DOWNLOAD_INTERRUPT_REASON_NONE ↔ pathExists = true := by
  cases pathExists
  · simp only [AnnotateWithSourceInformation,
      MapScanAndSaveErrorCodeToInterruptReason, LogInterruptReason]
    split_ifs <;> simp_all
  · simp [AnnotateWithSourceInformation]

/-- Witness for the C8 amended theorem at the concrete failed status E_FAIL
with the file present. -/
theorem annotate_none_iff_file_exists_witness :
    (AnnotateWithSourceInformation E_FAIL true).reason =
      DOWNLOAD_INTERRUPT_REASON_NONE :=
  (annotate_none_iff_file_exists E_FAIL true).mpr rfl

/-- C9: the claim states that the lenient path (reason NONE, failed status)
records a diagnostic counter; this counterexample shows that at hr = E_FAIL
with the file present, the annotate step returns NONE with a failed status and
records no counter and no log entry. -/
theorem lenient_path_records_no_counter :
    SUCCEEDED E_FAIL = false ∧
    (AnnotateWithSourceInformation E_FAIL true).reason =
      DOWNLOAD_INTERRUPT_REASON_NONE ∧
    (AnnotateWithSourceInformation E_FAIL true).recordedFileMissingAfterSuccessfulScan
      = false ∧
    (AnnotateWithSourceInformation E_FAIL true).loggedScanResult = false := by
  decide

/-- C9 (amended): the FILE_MISSING_AFTER_SUCCESSFUL_SCAN_COUNT counter is
recorded exactly when the destination file is missing and the inspection
status indicated success; the lenient failed-status/file-present path records
no counter. -/
theorem counter_iff_success_and_missing (hr : Int) (pathExists : Bool) :
    (AnnotateWithSourceInformation hr pathExists).recordedFileMissingAfterSuccessfulScan
      = true ↔ (pathExists = false ∧ SUCCEEDED hr = true) := by
  cases pathExists
  · simp only [AnnotateWithSourceInformation,
      MapScanAndSaveErrorCodeToInterruptReason]
    split_ifs <;> simp_all
  · simp [AnnotateWithSourceInformation]

/-- Witness for the C9 amended theorem at the concrete succeeded status 0 with
the file missing. -/
theorem counter_iff_success_and_missing_witness :
    (AnnotateWithSourceInformation 0 false).recordedFileMissingAfterSuccessfulScan
      = true :=
  (counter_iff_success_and_missing 0 false).mpr ⟨rfl, by decide⟩

/-- C10: for every succeeded inspection status, if the destination file is
absent after the call, the annotate step records the
FILE_MISSING_AFTER_SUCCESSFUL_SCAN_COUNT counter and returns
FILE_SECURITY_CHECK_FAILED, not NONE. -/
theorem annotate_success_missing_security_check_failed (hr : Int)
    (h : SUCCEEDED hr = true) :
    (AnnotateWithSourceInformation hr false).reason =
      DOWNLOAD_INTERRUPT_REASON_FILE_SECURITY_CHECK_FAILED ∧
    (AnnotateWithSourceInformation hr false).recordedFileMissingAfterSuccessfulScan
      = true := by
  simp only [AnnotateWithSourceInformation,
    MapScanAndSaveErrorCodeToInterruptReason, LogInterruptReason, h]
  split_ifs <;> simp_all

/-- Witness for C10 at the concrete succeeded status 0. -/
theorem annotate_success_missing_security_check_failed_witness :
    (AnnotateWithSourceInformation 0 false).reason =
      DOWNLOAD_INTERRUPT_REASON_FILE_SECURITY_CHECK_FAILED ∧
    (AnnotateWithSourceInformation 0 false).recordedFileMissingAfterSuccessfulScan
      = true :=
  annotate_success_missing_security_check_failed 0 (by decide)

end BaseFileWin
